import Mathlib

/-!
Shallow embedding of the langchaingo vector-store pipeline:

* `src/vectorstores/qdrant/qdrant.go` — the qdrant `Store` with
  `AddDocuments`, `SimilaritySearch`, `PayloadSearch`, `getScoreThreshold`,
  `getFilters`, `getOptions` and `deduplicate`;
* `src/unnamed/part_000` (package `vertexai`) — `LLM.CreateEmbedding`;
* `src/unnamed/part_001` (package `redisvector`) — `NewIndexMetadataSearch`
  and `IndexVectorSearch.AsMetadataSearchCommand`.

Modelling conventions:

* Go maps `map[string]interface{}` are modelled as association lists
  `List (String × Value)` with first-match lookup; a Go map copy followed by
  a key write is modelled by `mapSet` (delete the key, append the new
  binding), which has the same lookup semantics.
* Go `float32` score thresholds are modelled as `Rat`: the validation logic
  only compares against the exactly representable constants 0 and 1, and
  float comparison on float-representable values agrees with the rational
  order.
* Go `error` values are strings (`errors.New`); fallible Go functions return
  `Except String α`.  The two error messages created by the qdrant store are
  kept verbatim.
* The external collaborators (the embedder interface and the REST RPCs
  `upsertPoints`, `searchPoints`, `scroll`, which are not part of the store
  logic under verification) are passed in as function parameters.
* Each store operation additionally returns the ordered list of external
  calls (embedder invocations and backend RPCs) it performs, so that claims
  of the form "no RPC is issued" are statable; the trace is constructed to
  follow the Go control flow exactly.
* `context.Context` parameters carry no information in this layer and are
  dropped.
-/

namespace LangchainGo

/-- A metadata / payload value (Go `interface{}` restricted to the scalar
values that occur in the examples). -/
inductive Value where
  | str : String → Value
  | int : Int → Value
deriving DecidableEq

/-- A Go `map[string]interface{}`, as an association list. -/
abbrev Payload := List (String × Value)

/-- First-match lookup in an association list (Go map read `m[k]`). -/
def mapLookup (m : Payload) (k : String) : Option Value :=
  (m.find? (fun kv => kv.1 == k)).map (fun kv => kv.2)

/-- Go map copy-and-write: `m` with the binding `k ↦ v` added or
overwritten.  Represented by removing any binding of `k` and appending
`(k, v)`; lookups agree with the Go map after `m[k] = v`. -/
def mapSet (m : Payload) (k : String) (v : Value) : Payload :=
  m.filter (fun kv => kv.1 != k) ++ [(k, v)]

/-- Model of `schema.Document`: page content plus caller-owned metadata. -/
structure Document where
  pageContent : String
  metadata : Payload
deriving DecidableEq

/-- An embedding vector (`[]float32` / `[]float64`, modelled over `Rat`). -/
abbrev Vec := List Rat

/-- Model of `vectorstores.Options` — the per-call options relevant to this store.
Zero values match Go: threshold 0, no filters, no deduplicater. -/
structure Options where
  scoreThreshold : Rat := 0
  filters : Option String := none
  deduplicater : Option (Document → Bool) := none

/-- Model of `vectorstores.Option`: a mutator applied to the options struct. -/
abbrev VOption := Options → Options

/-- One external call made by a store operation: an embedder invocation or a
backend RPC. -/
inductive Call where
  | embedDocuments : List String → Call
  | embedQuery : String → Call
  | upsertPoints : List Vec → List Payload → Call
  | searchPoints : Vec → Int → Rat → Option String → Call
  | scroll : Int → Option String → Call
deriving DecidableEq

/-- The qdrant `Store` configuration (the embedder interface is passed to
each operation as a function parameter). -/
structure Store where
  collectionName : String := ""
  qdrantURL : String := ""
  apiKey : String := ""
  contentKey : String := "content"

/-- Model of `Store.getOptions`: fold the variadic option mutators over the zero
options value. -/
def getOptions (options : List VOption) : Options :=
  options.foldl (fun opts opt => opt opts) {}

/-- Model of `Store.getScoreThreshold`: reject thresholds outside `[0, 1]`. -/
def Store.getScoreThreshold (_s : Store) (opts : Options) : Except String Rat :=
  if opts.scoreThreshold < 0 ∨ opts.scoreThreshold > 1 then
    .error "score threshold must be between 0 and 1"
  else
    .ok opts.scoreThreshold

/-- Model of `Store.getFilters`: return `opts.Filters` when it is non-nil, `nil`
otherwise. -/
def Store.getFilters (_s : Store) (opts : Options) : Option String :=
  match opts.filters with
  | some f => some f
  | none => none

/-- Model of `Store.deduplicate`: keep the documents the configured predicate does
not mark as duplicates; identity when no predicate is configured. -/
def Store.deduplicate (_s : Store) (opts : Options) (docs : List Document) :
    List Document :=
  match opts.deduplicater with
  | none => docs
  | some dedup => docs.filter (fun doc => !dedup doc)

/-- The payload built for one surviving document in `Store.AddDocuments`
(lines 60-67 of `qdrant.go`): a fresh copy of the document metadata with the
content key bound to the page content (`texts[i] = docs[i].PageContent`). -/
def buildPayload (contentKey : String) (doc : Document) : Payload :=
  mapSet doc.metadata contentKey (Value.str doc.pageContent)

/-- Model of `Store.AddDocuments`.  `embedDocuments` is the embedder interface,
`upsertPoints` the backend RPC; the Go result `([]string, error)` is
`Except String (Option (List String))` with `.ok none` for `(nil, nil)`.
The second component is the trace of external calls. -/
def Store.addDocuments (s : Store)
    (embedDocuments : List String → Except String (List Vec))
    (upsertPoints : List Vec → List Payload → Except String (List String))
    (options : List VOption) (docs0 : List Document) :
    Except String (Option (List String)) × List Call :=
  let opts := getOptions options
  let docs := s.deduplicate opts docs0
  if docs.length = 0 then
    (.ok none, [])
  else
    let texts := docs.map (fun doc => doc.pageContent)
    match embedDocuments texts with
    | .error err => (.error err, [Call.embedDocuments texts])
    | .ok vectors =>
      if vectors.length ≠ docs.length then
        (.error "number of vectors from embedder does not match number of documents",
          [Call.embedDocuments texts])
      else
        let metadatas := docs.map (buildPayload s.contentKey)
        match upsertPoints vectors metadatas with
        | .error err =>
            (.error err,
              [Call.embedDocuments texts, Call.upsertPoints vectors metadatas])
        | .ok ids =>
            (.ok (some ids),
              [Call.embedDocuments texts, Call.upsertPoints vectors metadatas])

/-- Model of `Store.SimilaritySearch`: resolve options, build filters, validate the
score threshold, embed the query and issue the search RPC. -/
def Store.similaritySearch (s : Store)
    (embedQuery : String → Except String Vec)
    (searchPoints : Vec → Int → Rat → Option String → Except String (List Document))
    (options : List VOption) (query : String) (numDocuments : Int) :
    Except String (List Document) × List Call :=
  let opts := getOptions options
  let filters := s.getFilters opts
  match s.getScoreThreshold opts with
  | .error err => (.error err, [])
  | .ok scoreThreshold =>
    match embedQuery query with
    | .error err => (.error err, [Call.embedQuery query])
    | .ok vector =>
      match searchPoints vector numDocuments scoreThreshold filters with
      | .error err =>
          (.error err,
            [Call.embedQuery query,
              Call.searchPoints vector numDocuments scoreThreshold filters])
      | .ok docs =>
          (.ok docs,
            [Call.embedQuery query,
              Call.searchPoints vector numDocuments scoreThreshold filters])

/-- Model of `Store.PayloadSearch`: resolve options, build filters and issue the
scroll RPC; no embedding, no threshold validation. -/
def Store.payloadSearch (s : Store)
    (scroll : Int → Option String → Except String (List Document))
    (options : List VOption) (numDocuments : Int) :
    Except String (List Document) × List Call :=
  let opts := getOptions options
  let filters := s.getFilters opts
  match scroll numDocuments filters with
  | .error err => (.error err, [Call.scroll numDocuments filters])
  | .ok docs => (.ok docs, [Call.scroll numDocuments filters])

/-- Model of `vertexai.ErrEmptyResponse`. -/
def ErrEmptyResponse : String := "no response"

/-- Model of `vertexai.ErrUnexpectedResponseLength`. -/
def ErrUnexpectedResponseLength : String := "unexpected length of response"

/-- Model of `vertexai.LLM.CreateEmbedding`: call the PaLM client, then reject an
empty result and a result whose length differs from the input length.
`clientCreateEmbedding` is the external `vertexaiclient` call. -/
def createEmbedding
    (clientCreateEmbedding : List String → Except String (List Vec))
    (inputTexts : List String) : Except String (List Vec) :=
  match clientCreateEmbedding inputTexts with
  | .error err => .error err
  | .ok embeddings =>
    if embeddings.length = 0 then
      .error ErrEmptyResponse
    else if inputTexts.length ≠ embeddings.length then
      .error ErrUnexpectedResponseLength
    else
      .ok embeddings

/-- Model of `redisvector.IndexVectorSearch` — the fields read by
`NewIndexMetadataSearch` and `AsMetadataSearchCommand`.  The struct
declaration itself is outside the given sources; the field types are forced
by their uses there (`strconv.Itoa` takes an `int`, hence `offset` and
`limit` are `Int`; `returns` is appended to a `[]string`; `preFilters` is
measured with `len` and appended as a string). -/
structure IndexVectorSearch where
  index : String
  returns : List String := []
  preFilters : String := ""
  offset : Int := 0
  limit : Int := 0

/-- Model of `redisvector.NewIndexMetadataSearch`: reject an empty index name, then
apply the search options. -/
def NewIndexMetadataSearch (index : String)
    (opts : List (IndexVectorSearch → IndexVectorSearch)) :
    Except String IndexVectorSearch :=
  if index = "" then
    .error "invalid index"
  else
    .ok (opts.foldl (fun s opt => opt s) { index := index, returns := [] })

/-- Model of `IndexVectorSearch.AsMetadataSearchCommand`: build the `FT.SEARCH`
argument list.  The receiver is a value, so `s.limit = 1` only mutates a
local copy, modelled by the `limit` binding. -/
def IndexVectorSearch.asMetadataSearchCommand (s : IndexVectorSearch) :
    List String :=
  let cmd := ["FT.SEARCH", s.index]
  let limit : Int := if s.limit = 0 then 1 else s.limit
  let filter := if s.preFilters.length > 0 then s.preFilters else "*"
  let cmd := cmd ++ [filter]
  let cmd :=
    if s.returns.length > 0 then
      cmd ++ ["RETURN", toString s.returns.length] ++ s.returns
    else
      cmd
  let cmd := cmd ++ ["DIALECT", "2"]
  cmd ++ ["LIMIT", toString s.offset, toString limit]

/-! Concrete instances used by the witness theorems. -/

/-- A store with the default configuration (content key `"content"`). -/
def sEx : Store := {}

/-- The spec example document: metadata `{"job": "engineer"}`, text
`"hello"`. -/
def docEng : Document :=
  { pageContent := "hello", metadata := [("job", Value.str "engineer")] }

/-- A document a deduplication predicate will drop. -/
def docDup : Document := { pageContent := "dup", metadata := [] }

/-- An embedder that returns one one-dimensional vector per input text. -/
def embedEx : List String → Except String (List Vec) :=
  fun texts => Except.ok (texts.map (fun _ => [(1 : Rat)]))

/-- An embedder that always returns zero vectors. -/
def embedNone : List String → Except String (List Vec) :=
  fun _ => Except.ok []

/-- A query embedder returning a fixed vector. -/
def embedQEx : String → Except String Vec :=
  fun _ => Except.ok [(1 : Rat)]

/-- An upsert RPC returning one id per payload. -/
def upsertEx : List Vec → List Payload → Except String (List String) :=
  fun _ payloads => Except.ok (payloads.map (fun _ => "id0"))

/-- A search RPC returning no hits. -/
def searchEx : Vec → Int → Rat → Option String → Except String (List Document) :=
  fun _ _ _ _ => Except.ok []

/-- A scroll RPC returning no records. -/
def scrollEx : Int → Option String → Except String (List Document) :=
  fun _ _ => Except.ok []

/-- The option mutator setting the score threshold. -/
def setThresh (t : Rat) : VOption :=
  fun opts => { opts with scoreThreshold := t }

/-- The option mutator installing a predicate marking everything duplicate. -/
def dedupTrue : VOption :=
  fun opts => { opts with deduplicater := some (fun _ => true) }

/-- A predicate marking exactly the documents with page content `"dup"`. -/
def isDupEx : Document → Bool := fun doc => doc.pageContent == "dup"

/-- Options with the `isDupEx` deduplication predicate installed. -/
def optsDedup : Options := { deduplicater := some isDupEx }

/-- A metadata search over index `"users"` with all defaults (limit 0). -/
def ivsPlain : IndexVectorSearch := { index := "users" }

/-- A metadata search whose configured limit is negative. -/
def ivsNeg : IndexVectorSearch := { index := "users", limit := -1 }

/-! Helper lemmas about association-list maps. -/

theorem find?_filter_ne_self (m : Payload) (k : String) :
    List.find? (fun kv => kv.1 == k) (m.filter (fun kv => kv.1 != k)) = none := by
  rw [List.find?_eq_none]
  intro x hx
  have hmem := List.mem_filter.mp hx
  simpa using hmem.2

theorem find?_filter_ne_of_ne (m : Payload) (k k' : String) (h : k' ≠ k) :
    List.find? (fun kv => kv.1 == k') (m.filter (fun kv => kv.1 != k)) =
      List.find? (fun kv => kv.1 == k') m := by
  induction m with
  | nil => simp
  | cons kv m ih =>
    by_cases hk' : kv.1 = k'
    · have hkne : (kv.1 != k) = true := by simp [hk', h]
      simp [List.filter_cons, hkne, List.find?_cons, hk', h]
    · by_cases hk : (kv.1 != k) = true
      · simp [List.filter_cons, hk, List.find?_cons, hk', ih]
      · simp [List.filter_cons, hk, List.find?_cons, hk', ih]

theorem mapLookup_mapSet_self (m : Payload) (k : String) (v : Value) :
    mapLookup (mapSet m k v) k = some v := by
  unfold mapLookup mapSet
  rw [List.find?_append, find?_filter_ne_self]
  simp [List.find?]

theorem mapLookup_mapSet_ne (m : Payload) (k k' : String) (v : Value)
    (h : k' ≠ k) :
    mapLookup (mapSet m k v) k' = mapLookup m k' := by
  unfold mapLookup mapSet
  rw [List.find?_append, find?_filter_ne_of_ne m k k' h]
  have hkk : (k == k') = false := beq_eq_false_iff_ne.mpr (Ne.symm h)
  have h2 : List.find? (fun kv => kv.1 == k') [(k, v)] = none := by
    simp [List.find?, hkk]
  rw [h2]
  simp

theorem keys_filter (ck : String) (m : Payload) :
    (m.filter (fun kv => kv.1 != ck)).map Prod.fst =
      (m.map Prod.fst).filter (fun k => k != ck) := by
  induction m with
  | nil => simp
  | cons kv m ih =>
    by_cases h : kv.1 != ck <;> simp [List.filter_cons, h, ih]

theorem buildPayload_keys (ck : String) (doc : Document) :
    (buildPayload ck doc).map Prod.fst =
      ((doc.metadata.map Prod.fst).filter (fun k => k != ck)) ++ [ck] := by
  simp [buildPayload, mapSet, keys_filter]

/-! Claim theorems. -/

/-- C6: the payload built by `AddDocuments` for a surviving document is a
shallow copy of the document's metadata with exactly one key added or
overwritten — the configured content key, bound to the page content; every
other key looks up to its original value, and the key set is the original
key set (minus any old content-key binding) plus the content key.  The
caller's metadata is not mutated: the payload is built into a fresh map
(`make` + copy in the source, a pure function here). -/
theorem addDocuments_payload_shallow_copy (ck : String) (doc : Document) :
    mapLookup (buildPayload ck doc) ck = some (Value.str doc.pageContent) ∧
    (∀ k, k ≠ ck → mapLookup (buildPayload ck doc) k = mapLookup doc.metadata k) ∧
    (buildPayload ck doc).map Prod.fst =
      ((doc.metadata.map Prod.fst).filter (fun k => k != ck)) ++ [ck] :=
  ⟨mapLookup_mapSet_self doc.metadata ck (Value.str doc.pageContent),
    fun k h => mapLookup_mapSet_ne doc.metadata ck k (Value.str doc.pageContent) h,
    buildPayload_keys ck doc⟩

/-- Witness for C6: metadata `{"job": "engineer"}`, content key `"content"`,
text `"hello"` yields the payload `{"job": "engineer", "content": "hello"}`. -/
theorem addDocuments_payload_shallow_copy_witness :
    mapLookup (buildPayload "content" docEng) "content" = some (Value.str "hello") ∧
    mapLookup (buildPayload "content" docEng) "job" = some (Value.str "engineer") ∧
    buildPayload "content" docEng =
      [("job", Value.str "engineer"), ("content", Value.str "hello")] := by
  refine ⟨(addDocuments_payload_shallow_copy "content" docEng).1, ?_, rfl⟩
  have h := (addDocuments_payload_shallow_copy "content" docEng).2.1 "job" (by decide)
  rw [h]; rfl

/-- C7: `deduplicate` returns exactly the subsequence of documents the
configured predicate rejects, in input order; with no predicate it is the
identity; in all cases the result is a sublist of the input and never
longer. -/
theorem deduplicate_subsequence (s : Store) (opts : Options)
    (docs : List Document) :
    (opts.deduplicater = none → s.deduplicate opts docs = docs) ∧
    (∀ p, opts.deduplicater = some p →
      s.deduplicate opts docs = docs.filter (fun doc => !p doc)) ∧
    List.Sublist (s.deduplicate opts docs) docs ∧
    (s.deduplicate opts docs).length ≤ docs.length := by
  have hsub : List.Sublist (s.deduplicate opts docs) docs := by
    unfold Store.deduplicate
    cases opts.deduplicater with
    | none => exact List.Sublist.refl docs
    | some p => exact List.filter_sublist docs
  refine ⟨?_, ?_, hsub, hsub.length_le⟩
  · intro h
    unfold Store.deduplicate
    rw [h]
  · intro p h
    unfold Store.deduplicate
    rw [h]

/-- Witness for C7: a predicate marking `"dup"` documents keeps exactly the
other documents, in order. -/
theorem deduplicate_subsequence_witness :
    sEx.deduplicate optsDedup [docDup, docEng] = [docEng] := by
  have h := (deduplicate_subsequence sEx optsDedup [docDup, docEng]).2.1 isDupEx rfl
  rw [h]; rfl

/-- C1: whenever `AddDocuments` returns without error, either the whole
batch was deduplicated away (no vectors, no payloads), or the vector list
obtained from the embedder, the payload list and the surviving-document
list all have the same length, the embedder was invoked exactly on the
surviving documents' page contents in order, and `payload[i]` is built from
`survivingDocuments[i]` (its metadata plus the content key bound to its page
content), positionally. -/
theorem addDocuments_success_alignment (s : Store)
    (embedDocuments : List String → Except String (List Vec))
    (upsertPoints : List Vec → List Payload → Except String (List String))
    (options : List VOption) (docs0 : List Document)
    (ids : Option (List String)) (trace : List Call)
    (h : s.addDocuments embedDocuments upsertPoints options docs0 = (.ok ids, trace)) :
    (s.deduplicate (getOptions options) docs0 = [] ∧ ids = none ∧ trace = []) ∨
    (∃ vectors returnedIds,
      embedDocuments ((s.deduplicate (getOptions options) docs0).map
        (fun doc => doc.pageContent)) = .ok vectors ∧
      vectors.length = (s.deduplicate (getOptions options) docs0).length ∧
      ((s.deduplicate (getOptions options) docs0).map
        (buildPayload s.contentKey)).length =
        (s.deduplicate (getOptions options) docs0).length ∧
      ids = some returnedIds ∧
      trace = [Call.embedDocuments ((s.deduplicate (getOptions options) docs0).map
          (fun doc => doc.pageContent)),
        Call.upsertPoints vectors ((s.deduplicate (getOptions options) docs0).map
          (buildPayload s.contentKey))] ∧
      (∀ i : Nat, ((s.deduplicate (getOptions options) docs0).map
          (fun doc => doc.pageContent))[i]? =
        ((s.deduplicate (getOptions options) docs0)[i]?).map
          (fun doc : Document => doc.pageContent)) ∧
      (∀ i : Nat, ((s.deduplicate (getOptions options) docs0).map
          (buildPayload s.contentKey))[i]? =
        ((s.deduplicate (getOptions options) docs0)[i]?).map
          (buildPayload s.contentKey))) := by
  by_cases h0 : (s.deduplicate (getOptions options) docs0).length = 0
  · have hval : s.addDocuments embedDocuments upsertPoints options docs0 =
        (.ok none, []) := by
      simp [Store.addDocuments, h0]
    have h' := hval.symm.trans h
    simp only [Prod.mk.injEq, Except.ok.injEq] at h'
    exact Or.inl ⟨List.length_eq_zero.mp h0, h'.1.symm, h'.2.symm⟩
  · cases hemb : embedDocuments ((s.deduplicate (getOptions options) docs0).map
        (fun doc => doc.pageContent)) with
    | error e =>
      have hval : s.addDocuments embedDocuments upsertPoints options docs0 =
          (.error e, [Call.embedDocuments ((s.deduplicate (getOptions options) docs0).map
            (fun doc => doc.pageContent))]) := by
        simp [Store.addDocuments, h0, hemb]
      have h' := hval.symm.trans h
      simp at h'
    | ok vectors =>
      by_cases hlen : vectors.length ≠ (s.deduplicate (getOptions options) docs0).length
      · have hval : s.addDocuments embedDocuments upsertPoints options docs0 =
            (.error "number of vectors from embedder does not match number of documents",
              [Call.embedDocuments ((s.deduplicate (getOptions options) docs0).map
                (fun doc => doc.pageContent))]) := by
          simp [Store.addDocuments, h0, hemb, hlen]
        have h' := hval.symm.trans h
        simp at h'
      · have hleneq := not_ne_iff.mp hlen
        cases hup : upsertPoints vectors ((s.deduplicate (getOptions options) docs0).map
            (buildPayload s.contentKey)) with
        | error e =>
          have hval : s.addDocuments embedDocuments upsertPoints options docs0 =
              (.error e,
                [Call.embedDocuments ((s.deduplicate (getOptions options) docs0).map
                  (fun doc => doc.pageContent)),
                 Call.upsertPoints vectors ((s.deduplicate (getOptions options) docs0).map
                  (buildPayload s.contentKey))]) := by
            simp [Store.addDocuments, h0, hemb, hlen, hup]
          have h' := hval.symm.trans h
          simp at h'
        | ok returnedIds =>
          have hval : s.addDocuments embedDocuments upsertPoints options docs0 =
              (.ok (some returnedIds),
                [Call.embedDocuments ((s.deduplicate (getOptions options) docs0).map
                  (fun doc => doc.pageContent)),
                 Call.upsertPoints vectors ((s.deduplicate (getOptions options) docs0).map
                  (buildPayload s.contentKey))]) := by
            simp [Store.addDocuments, h0, hemb, hlen, hup]
          have h' := hval.symm.trans h
          simp only [Prod.mk.injEq, Except.ok.injEq] at h'
          refine Or.inr ⟨vectors, returnedIds, rfl, hleneq, by simp, h'.1.symm,
            h'.2.symm, ?_, ?_⟩
          · intro i
            simp
          · intro i
            simp

/-- Witness for C1 at a one-document batch with a one-vector embedder. -/
theorem addDocuments_success_alignment_witness :
    (sEx.deduplicate (getOptions []) [docEng] = [] ∧
      (some ["id0"] : Option (List String)) = none ∧
      ([Call.embedDocuments ["hello"],
        Call.upsertPoints [[(1 : Rat)]]
          [[("job", Value.str "engineer"), ("content", Value.str "hello")]]] :
        List Call) = []) ∨
    (∃ vectors returnedIds,
      embedEx ((sEx.deduplicate (getOptions []) [docEng]).map
        (fun doc => doc.pageContent)) = .ok vectors ∧
      vectors.length = (sEx.deduplicate (getOptions []) [docEng]).length ∧
      ((sEx.deduplicate (getOptions []) [docEng]).map
        (buildPayload sEx.contentKey)).length =
        (sEx.deduplicate (getOptions []) [docEng]).length ∧
      (some ["id0"] : Option (List String)) = some returnedIds ∧
      ([Call.embedDocuments ["hello"],
        Call.upsertPoints [[(1 : Rat)]]
          [[("job", Value.str "engineer"), ("content", Value.str "hello")]]] :
        List Call) =
        [Call.embedDocuments ((sEx.deduplicate (getOptions []) [docEng]).map
            (fun doc => doc.pageContent)),
          Call.upsertPoints vectors ((sEx.deduplicate (getOptions []) [docEng]).map
            (buildPayload sEx.contentKey))] ∧
      (∀ i : Nat, ((sEx.deduplicate (getOptions []) [docEng]).map
          (fun doc => doc.pageContent))[i]? =
        ((sEx.deduplicate (getOptions []) [docEng])[i]?).map
          (fun doc : Document => doc.pageContent)) ∧
      (∀ i : Nat, ((sEx.deduplicate (getOptions []) [docEng]).map
          (buildPayload sEx.contentKey))[i]? =
        ((sEx.deduplicate (getOptions []) [docEng])[i]?).map
          (buildPayload sEx.contentKey))) :=
  addDocuments_success_alignment sEx embedEx upsertEx [] [docEng] (some ["id0"])
    [Call.embedDocuments ["hello"],
      Call.upsertPoints [[(1 : Rat)]]
        [[("job", Value.str "engineer"), ("content", Value.str "hello")]]] rfl

/-- C3: if the embedder succeeds but returns a vector count different from
the surviving-document count, `AddDocuments` fails with the length-mismatch
error and issues no upsert RPC. -/
theorem addDocuments_length_mismatch (s : Store)
    (embedDocuments : List String → Except String (List Vec))
    (upsertPoints : List Vec → List Payload → Except String (List String))
    (options : List VOption) (docs0 : List Document) (vectors : List Vec)
    (hne : s.deduplicate (getOptions options) docs0 ≠ [])
    (hemb : embedDocuments ((s.deduplicate (getOptions options) docs0).map
      (fun doc => doc.pageContent)) = .ok vectors)
    (hlen : vectors.length ≠ (s.deduplicate (getOptions options) docs0).length) :
    s.addDocuments embedDocuments upsertPoints options docs0 =
      (.error "number of vectors from embedder does not match number of documents",
        [Call.embedDocuments ((s.deduplicate (getOptions options) docs0).map
          (fun doc => doc.pageContent))]) ∧
    ∀ vs ps, Call.upsertPoints vs ps ∉
      (s.addDocuments embedDocuments upsertPoints options docs0).2 := by
  have h0 : ¬(s.deduplicate (getOptions options) docs0).length = 0 := by
    simpa [List.length_eq_zero] using hne
  have hmain : s.addDocuments embedDocuments upsertPoints options docs0 =
      (.error "number of vectors from embedder does not match number of documents",
        [Call.embedDocuments ((s.deduplicate (getOptions options) docs0).map
          (fun doc => doc.pageContent))]) := by
    simp [Store.addDocuments, h0, hemb, hlen]
  refine ⟨hmain, ?_⟩
  intro vs ps
  rw [hmain]
  simp

/-- Witness for C3: an embedder that returns zero vectors for one surviving
document triggers the length-mismatch error. -/
theorem addDocuments_length_mismatch_witness :
    sEx.addDocuments embedNone upsertEx [] [docEng] =
      (.error "number of vectors from embedder does not match number of documents",
        [Call.embedDocuments ["hello"]]) :=
  (addDocuments_length_mismatch sEx embedNone upsertEx [] [docEng] []
    (by decide) rfl (by decide)).1

/-- C5: when deduplication leaves no surviving documents, `AddDocuments`
returns `(nil, nil)` — success with no ids — and performs no external call
at all (neither embedding nor upsert). -/
theorem addDocuments_all_duplicates (s : Store)
    (embedDocuments : List String → Except String (List Vec))
    (upsertPoints : List Vec → List Payload → Except String (List String))
    (options : List VOption) (docs0 : List Document)
    (h : s.deduplicate (getOptions options) docs0 = []) :
    s.addDocuments embedDocuments upsertPoints options docs0 = (.ok none, []) ∧
    ∀ c, c ∉ (s.addDocuments embedDocuments upsertPoints options docs0).2 := by
  have h0 : (s.deduplicate (getOptions options) docs0).length = 0 := by simp [h]
  have hmain : s.addDocuments embedDocuments upsertPoints options docs0 =
      (.ok none, []) := by
    simp [Store.addDocuments, h0]
  refine ⟨hmain, ?_⟩
  intro c
  rw [hmain]
  simp

/-- Witness for C5: an all-duplicate batch is a successful no-op. -/
theorem addDocuments_all_duplicates_witness :
    sEx.addDocuments embedEx upsertEx [dedupTrue] [docEng] = (.ok none, []) :=
  (addDocuments_all_duplicates sEx embedEx upsertEx [dedupTrue] [docEng] rfl).1

/-- C4: `SimilaritySearch` with a resolved score threshold outside `[0, 1]`
returns the validation error with an empty call trace — no embedding and no
backend RPC happen; for any threshold inside `[0, 1]` the validation
returns the threshold unchanged, and any search RPC the call issues carries
exactly that threshold. -/
theorem similaritySearch_score_threshold (s : Store)
    (embedQuery : String → Except String Vec)
    (searchPoints : Vec → Int → Rat → Option String → Except String (List Document))
    (options : List VOption) (query : String) (numDocuments : Int) :
    (((getOptions options).scoreThreshold < 0 ∨ (getOptions options).scoreThreshold > 1) →
      s.similaritySearch embedQuery searchPoints options query numDocuments =
        (.error "score threshold must be between 0 and 1", [])) ∧
    ((0 ≤ (getOptions options).scoreThreshold ∧ (getOptions options).scoreThreshold ≤ 1) →
      s.getScoreThreshold (getOptions options) = .ok (getOptions options).scoreThreshold ∧
      ∀ v n t f, Call.searchPoints v n t f ∈
          (s.similaritySearch embedQuery searchPoints options query numDocuments).2 →
        t = (getOptions options).scoreThreshold) := by
  constructor
  · intro hout
    simp [Store.similaritySearch, Store.getScoreThreshold, if_pos hout]
  · rintro ⟨h0, h1⟩
    have hnout : ¬((getOptions options).scoreThreshold < 0 ∨
        (getOptions options).scoreThreshold > 1) := by
      simp only [not_or, not_lt]
      exact ⟨h0, h1⟩
    have hok : s.getScoreThreshold (getOptions options) =
        .ok (getOptions options).scoreThreshold := by
      simp [Store.getScoreThreshold, if_neg hnout]
    refine ⟨hok, ?_⟩
    intro v n t f hmem
    simp only [Store.similaritySearch, hok] at hmem
    cases hq : embedQuery query with
    | error e =>
      rw [hq] at hmem
      simp at hmem
    | ok vector =>
      rw [hq] at hmem
      cases hs : searchPoints vector numDocuments (getOptions options).scoreThreshold
          (s.getFilters (getOptions options)) with
      | error e =>
        simp [hs] at hmem
        exact hmem.2.2.1
      | ok docs =>
        simp [hs] at hmem
        exact hmem.2.2.1

/-- Witness for C4: threshold 2 is rejected before any call; threshold 1 is
accepted and passed through unchanged. -/
theorem similaritySearch_score_threshold_witness :
    sEx.similaritySearch embedQEx searchEx [setThresh 2] "query" 3 =
      (.error "score threshold must be between 0 and 1", []) ∧
    sEx.getScoreThreshold (getOptions [setThresh 1]) =
      .ok (getOptions [setThresh 1]).scoreThreshold := by
  constructor
  · exact (similaritySearch_score_threshold sEx embedQEx searchEx [setThresh 2]
      "query" 3).1 (Or.inr (by norm_num [getOptions, setThresh]))
  · exact ((similaritySearch_score_threshold sEx embedQEx searchEx [setThresh 1]
      "query" 3).2 (by norm_num [getOptions, setThresh])).1

/-- C9: `PayloadSearch` performs no embedding and no score-threshold
validation: its only external call is the scroll RPC bounded by
`numDocuments` with the built filter, and its outcome is unchanged by any
score-threshold option — including an out-of-range one. -/
theorem payloadSearch_no_embedding (s : Store)
    (scroll : Int → Option String → Except String (List Document))
    (options : List VOption) (numDocuments : Int) (t : Rat) :
    (s.payloadSearch scroll options numDocuments).2 =
      [Call.scroll numDocuments (s.getFilters (getOptions options))] ∧
    (∀ q, Call.embedQuery q ∉ (s.payloadSearch scroll options numDocuments).2) ∧
    (∀ texts, Call.embedDocuments texts ∉
      (s.payloadSearch scroll options numDocuments).2) ∧
    s.payloadSearch scroll (options ++ [setThresh t]) numDocuments =
      s.payloadSearch scroll options numDocuments := by
  have htrace : (s.payloadSearch scroll options numDocuments).2 =
      [Call.scroll numDocuments (s.getFilters (getOptions options))] := by
    simp only [Store.payloadSearch]
    cases hs : scroll numDocuments (s.getFilters (getOptions options)) <;> simp
  refine ⟨htrace, ?_, ?_, ?_⟩
  · intro q
    rw [htrace]
    simp
  · intro texts
    rw [htrace]
    simp
  · have hopts : getOptions (options ++ [setThresh t]) =
        { getOptions options with scoreThreshold := t } := by
      simp [getOptions, List.foldl_append, setThresh]
    have hfil : s.getFilters { getOptions options with scoreThreshold := t } =
        s.getFilters (getOptions options) := rfl
    simp only [Store.payloadSearch, hopts, hfil]

/-- Witness for C9 at a concrete scroll RPC with an out-of-range threshold
option: the call still succeeds and issues exactly one scroll RPC. -/
theorem payloadSearch_no_embedding_witness :
    sEx.payloadSearch scrollEx ([] ++ [setThresh 2]) 3 =
      sEx.payloadSearch scrollEx [] 3 ∧
    (sEx.payloadSearch scrollEx [] 3).2 =
      [Call.scroll 3 (sEx.getFilters (getOptions []))] := by
  have h := payloadSearch_no_embedding sEx scrollEx [] 3 2
  exact ⟨h.2.2.2, h.1⟩

/-- Counterexample to C2: in the qdrant store, a `PayloadSearch` and a
`SimilaritySearch` with no filter option hand the backend the absent/nil
filter (`none`), not a wildcard value — `getFilters` returns `nil` when
`opts.Filters` is `nil`. -/
theorem qdrant_nil_filter_counterexample :
    sEx.getFilters (getOptions []) = none ∧
    (sEx.payloadSearch scrollEx [] 3).2 = [Call.scroll 3 none] ∧
    (sEx.similaritySearch embedQEx searchEx [] "query" 3).2 =
      [Call.embedQuery "query", Call.searchPoints [(1 : Rat)] 3 0 none] :=
  ⟨rfl, rfl, rfl⟩

/-- C2 as amended: when no filter option is set, the qdrant store hands the
backend a nil (absent) filter for both search paths; the match-everything
wildcard `*` is what the redis `FT.SEARCH` metadata-search command builder
emits when no pre-filters are set. -/
theorem no_filter_dispatch (s : Store)
    (embedQuery : String → Except String Vec)
    (searchPoints : Vec → Int → Rat → Option String → Except String (List Document))
    (scroll : Int → Option String → Except String (List Document))
    (options : List VOption) (query : String) (numDocuments : Int)
    (ivs : IndexVectorSearch) :
    ((getOptions options).filters = none →
      s.getFilters (getOptions options) = none ∧
      (∀ v n t f, Call.searchPoints v n t f ∈
          (s.similaritySearch embedQuery searchPoints options query numDocuments).2 →
        f = none) ∧
      (∀ n f, Call.scroll n f ∈ (s.payloadSearch scroll options numDocuments).2 →
        f = none)) ∧
    (ivs.preFilters = "" → (ivs.asMetadataSearchCommand)[2]? = some "*") := by
  constructor
  · intro hnil
    have hfil : s.getFilters (getOptions options) = none := by
      simp [Store.getFilters, hnil]
    refine ⟨hfil, ?_, ?_⟩
    · intro v n t f hmem
      simp only [Store.similaritySearch, hfil] at hmem
      cases ht : s.getScoreThreshold (getOptions options) with
      | error e =>
        simp [ht] at hmem
      | ok thr =>
        cases hq : embedQuery query with
        | error e =>
          simp [ht, hq] at hmem
        | ok vector =>
          cases hs : searchPoints vector numDocuments thr none with
          | error e =>
            simp [ht, hq, hs] at hmem
            exact hmem.2.2.2
          | ok docs =>
            simp [ht, hq, hs] at hmem
            exact hmem.2.2.2
    · intro n f hmem
      simp only [Store.payloadSearch, hfil] at hmem
      cases hs : scroll numDocuments none with
      | error e =>
        simp [hs] at hmem
        exact hmem.2
      | ok docs =>
        simp [hs] at hmem
        exact hmem.2
  · intro hpre
    simp only [IndexVectorSearch.asMetadataSearchCommand, hpre]
    split <;> rfl

/-- Witness for the amended C2: the default store with no options hands a
nil filter; the redis command for index `"users"` carries `*` in the filter
position. -/
theorem no_filter_dispatch_witness :
    sEx.getFilters (getOptions []) = none ∧
    (ivsPlain.asMetadataSearchCommand)[2]? = some "*" := by
  have h := no_filter_dispatch sEx embedQEx searchEx scrollEx [] "query" 3 ivsPlain
  exact ⟨(h.1 rfl).1, h.2 rfl⟩

/-- C8: `CreateEmbedding` succeeds only with as many embeddings as input
texts (and never with zero embeddings); whenever the underlying client
succeeds but returns an empty result or a count different from the input
count, `CreateEmbedding` returns an error instead. -/
theorem createEmbedding_length_guard
    (clientCreateEmbedding : List String → Except String (List Vec))
    (inputTexts : List String) :
    (∀ embeddings, createEmbedding clientCreateEmbedding inputTexts = .ok embeddings →
      embeddings.length = inputTexts.length ∧ embeddings ≠ [] ∧
      clientCreateEmbedding inputTexts = .ok embeddings) ∧
    (∀ embeddings, clientCreateEmbedding inputTexts = .ok embeddings →
      (embeddings.length = 0 ∨ embeddings.length ≠ inputTexts.length) →
      ∃ err, createEmbedding clientCreateEmbedding inputTexts = .error err) := by
  constructor
  · intro embeddings h
    unfold createEmbedding at h
    cases hc : clientCreateEmbedding inputTexts with
    | error e =>
      rw [hc] at h
      simp at h
    | ok es =>
      rw [hc] at h
      by_cases h0 : es.length = 0
      · simp [h0] at h
      · by_cases h1 : inputTexts.length ≠ es.length
        · simp [h0, h1] at h
        · simp only [h0, h1, if_neg, ite_false, Except.ok.injEq] at h
          subst h
          exact ⟨(not_ne_iff.mp h1).symm, by simpa [List.length_eq_zero] using h0, rfl⟩
  · intro embeddings hc hbad
    unfold createEmbedding
    rw [hc]
    by_cases h0 : embeddings.length = 0
    · exact ⟨ErrEmptyResponse, by simp [h0]⟩
    · have hne : inputTexts.length ≠ embeddings.length := by
        rcases hbad with h | h
        · exact absurd h h0
        · exact fun he => h he.symm
      exact ⟨ErrUnexpectedResponseLength, by simp [h0, hne]⟩

/-- Witness for C8: a client returning one vector per text passes the
guard; a client returning one vector for two texts fails it. -/
theorem createEmbedding_length_guard_witness :
    (([[(1 : Rat)]] : List Vec).length = (["a"] : List String).length ∧
      ([[(1 : Rat)]] : List Vec) ≠ [] ∧ embedEx ["a"] = .ok [[(1 : Rat)]]) ∧
    ∃ err, createEmbedding embedNone ["a"] = .error err := by
  constructor
  · exact (createEmbedding_length_guard embedEx ["a"]).1 [[(1 : Rat)]] rfl
  · exact (createEmbedding_length_guard embedNone ["a"]).2 [] rfl (Or.inl rfl)

/-- Counterexample to C10: `limit` is a Go `int`; a negative configured
limit is emitted unchanged, so the command does not end with
`LIMIT <offset> <max(limit, 1)>` — at `limit = -1` the emitted count is
`"-1"` while `max(-1, 1) = 1`. -/
theorem asMetadataSearchCommand_max_counterexample :
    ivsNeg.asMetadataSearchCommand =
      ["FT.SEARCH", "users", "*", "DIALECT", "2", "LIMIT", "0", "-1"] ∧
    toString (max ivsNeg.limit 1) = "1" ∧ ¬("-1" : String) = "1" :=
  ⟨rfl, rfl, by decide⟩

/-- C10 as amended: `AsMetadataSearchCommand` always ends with
`LIMIT <offset> <limit'>` where `limit'` is 1 when the configured limit is
exactly 0 and the configured limit otherwise; `limit'` is never 0, it
equals `max(limit, 1)` whenever the configured limit is nonnegative, and
the command always includes `DIALECT 2` (immediately before the `LIMIT`
clause). -/
theorem asMetadataSearchCommand_limit (s : IndexVectorSearch) :
    (∃ head, s.asMetadataSearchCommand =
      head ++ ["DIALECT", "2", "LIMIT", toString s.offset,
        toString (if s.limit = 0 then (1 : Int) else s.limit)]) ∧
    (if s.limit = 0 then (1 : Int) else s.limit) ≠ 0 ∧
    (0 ≤ s.limit → (if s.limit = 0 then (1 : Int) else s.limit) = max s.limit 1) := by
  have happ : ∀ (X : List String) (o l : String),
      (X ++ ["DIALECT", "2"]) ++ ["LIMIT", o, l] =
        X ++ ["DIALECT", "2", "LIMIT", o, l] := by
    intro X o l
    simp
  refine ⟨?_, ?_, ?_⟩
  · unfold IndexVectorSearch.asMetadataSearchCommand
    exact ⟨_, happ _ _ _⟩
  · by_cases h : s.limit = 0
    · simp [h]
    · simp [h]
  · intro h0
    by_cases h : s.limit = 0
    · simp [h]
    · have h1 : 1 ≤ s.limit := by omega
      simp [h, max_eq_left h1]

/-- Witness for the amended C10: at the default limit 0 the emitted limit
is 1, which equals `max(0, 1)`. -/
theorem asMetadataSearchCommand_limit_witness :
    (if ivsPlain.limit = 0 then (1 : Int) else ivsPlain.limit) = max ivsPlain.limit 1 :=
  (asMetadataSearchCommand_limit ivsPlain).2.2 (by decide)

end LangchainGo
